import Mathlib

/-!
Verification of the bgpls neighbor FSM (src/neighbor.go) against its
natural-language specification.

The embedding translates the FSM core directly from the Go source:

* `FSMState`, `transition`, the driver `loop`, `shut`-interaction,
  `validateOpen`, `newFSM`'s session-timer initialization, the
  `established` state handler, and the OPEN construction in `connect`.
* Durations (`time.Duration`) are modelled as natural numbers of
  nanoseconds.  The Go comparison `float64(msg.holdTime) < f.holdTime.Seconds()`
  is modelled exactly as `msg.holdTime * 10^9 < holdTime_ns`; for the
  whole-second hold times used throughout (the config hold time is a number
  of seconds, and every value the FSM writes into the field is a whole
  number of seconds) `Duration.Seconds` is exact in float64 (seconds fit in
  2^53), so the two comparisons agree.
* The external message codec (message types, notification codes, the
  serialized form of the BGP-LS multiprotocol capability, `newOpenMessage`)
  is not part of src; those few definitions are modelled from the spec and
  are marked as such.
-/

namespace Bgpls

/-- FSMState mirrors the Go `FSMState` enumeration (src/neighbor.go). -/
inductive FSMState where
  | DisabledState
  | IdleState
  | ConnectState
  | ActiveState
  | OpenSentState
  | OpenConfirmState
  | EstablishedState
deriving DecidableEq, Repr, Fintype

open FSMState

/-- AS_TRANS sentinel ASN (RFC 6793), `asTrans` in the codec. -/
def asTrans : Nat := 23456

/-- Modelled from the spec: the BGP-LS AFI value (16388, RFC 7752); the
constant `BgpLsAFI` lives in the external codec, not under src. -/
def bgpLsAFI : Nat := 16388

/-- Modelled from the spec: the BGP-LS SAFI value (71, RFC 7752); the
constant `BgpLsSAFI` lives in the external codec, not under src. -/
def bgpLsSAFI : Nat := 71

/-- Modelled from the spec: the OPEN message type byte (OPEN = 1, spec §6);
the constant `OpenMessageType` lives in the external codec, not under src. -/
def openMessageTypeByte : Nat := 1

/-- NOTIFICATION error codes used by the FSM core (spec §6). The numeric
values live in the external codec, so the codes are embedded as an
enumeration. -/
inductive NotifErrCode where
  | messageHeader
  | openMessage
  | holdTimerExpired
  | cease
deriving DecidableEq, Repr

/-- NOTIFICATION error subcodes used by the FSM core (spec §6). `zero`
stands for the literal subcode 0 the Go code passes for Cease and
HoldTimerExpired notifications. -/
inductive NotifErrSubcode where
  | zero
  | unsupportedVersionNumber
  | badPeerAS
  | badBgpID
  | unsupportedOptParam
  | unacceptableHoldTime
  | unsupportedCapability
  | badType
deriving DecidableEq, Repr

/-- errWithNotification: the typed error `validateOpen` and the handlers
produce, carrying the NOTIFICATION payload.  The Go wrapped `error` string
is omitted (log text only). `data = []` models Go's nil data. -/
structure ErrWithNotification where
  code : NotifErrCode
  subcode : NotifErrSubcode
  data : List Nat
deriving DecidableEq, Repr

/-- BGP capabilities as `validateOpen` distinguishes them: the Go type
switch over `*capFourOctetAs`, `*capMultiproto` and `*capUnknown`. -/
inductive Cap where
  | capFourOctetAs (asn : Nat)
  | capMultiproto (afi safi : Nat)
  | capUnknown
deriving DecidableEq, Repr

/-- OPEN optional parameters as `validateOpen` distinguishes them: the Go
type assertion `p.(*capabilityOptParam)`, everything else being a
non-capability parameter. -/
inductive OptParam where
  | capabilityOptParam (caps : List Cap)
  | unknownOptParam
deriving DecidableEq, Repr

/-- openMessage: the parsed OPEN message fields `validateOpen` reads.
`asn` is the two-octet wire field (u16), `holdTime` the u16 seconds field,
`bgpID` the u32 router id, `version` the u8 version. -/
structure OpenMessage where
  version : Nat
  asn : Nat
  holdTime : Nat
  bgpID : Nat
  optParams : List OptParam
deriving DecidableEq, Repr

/-- Modelled from the spec: serialization of the multiprotocol capability
(`capMultiproto.serialize`, external codec; capability code 1, RFC 4760
triple AFI/reserved/SAFI).  The claims only require that `validateOpen`'s
UnsupportedCapability data equals this serialization applied to the BGP-LS
AFI/SAFI, which holds for any faithful byte layout. -/
def capMultiprotoSerialize (afi safi : Nat) : List Nat :=
  [1, 4, afi / 256 % 256, afi % 256, 0, safi % 256]

/-- The two session-timer fields of `standardFSM` that `validateOpen`
mutates: `holdTime` and `keepAliveTime`, both in nanoseconds. -/
structure SessionTimers where
  holdTime : Nat
  keepAliveTime : Nat
deriving DecidableEq, Repr

/-- Session-timer initialization in `newFSM`: `holdTime` is the configured
hold time, `keepAliveTime` is `time.Duration(int64(holdTime)/3).Truncate(time.Second)`,
i.e. a third of the hold time truncated to whole seconds. -/
def newFSMTimers (configHoldTime : Nat) : SessionTimers :=
  { holdTime := configHoldTime
  , keepAliveTime := configHoldTime / 3 / 1000000000 * 1000000000 }

/-- The inner loop of `validateOpen` over the capabilities of one
capability optional parameter, threading the `(fourOctetAsFound,
bgpLsAfFound)` flags: a Four-Octet-AS capability whose ASN differs from the
configured peer ASN fails with BadPeerAS; a multiprotocol capability sets
`bgpLsAfFound` when it carries the BGP-LS AFI/SAFI pair; unknown
capabilities are ignored. -/
def checkCaps (cfgASN : Nat) (found : Bool × Bool) :
    List Cap → Except ErrWithNotification (Bool × Bool)
  | [] => .ok found
  | c :: rest =>
    match c with
    | .capFourOctetAs a =>
      if a ≠ cfgASN then
        .error ⟨.openMessage, .badPeerAS, []⟩
      else
        checkCaps cfgASN (true, found.2) rest
    | .capMultiproto afi safi =>
      checkCaps cfgASN
        (found.1, found.2 || (decide (afi = bgpLsAFI) && decide (safi = bgpLsSAFI))) rest
    | .capUnknown => checkCaps cfgASN found rest

/-- The outer loop of `validateOpen` over the optional parameters: any
non-capability parameter fails with UnsupportedOptParam, a capability
parameter is scanned by `checkCaps`. -/
def checkParams (cfgASN : Nat) (found : Bool × Bool) :
    List OptParam → Except ErrWithNotification (Bool × Bool)
  | [] => .ok found
  | p :: rest =>
    match p with
    | .capabilityOptParam caps =>
      match checkCaps cfgASN found caps with
      | .error e => .error e
      | .ok found2 => checkParams cfgASN found2 rest
    | .unknownOptParam => .error ⟨.openMessage, .unsupportedOptParam, []⟩

/-- validateOpen, translated from src/neighbor.go lines 582-684.  Input:
the configured peer ASN (u32), the FSM's current session timers, and the
parsed OPEN.  Output: the session timers after the call (the Go method
mutates `f.holdTime`/`f.keepAliveTime` in place at rule 4) together with
the optional error.  Rule order follows the source: version, two-octet AS
field, unacceptable hold time, hold-time reduction, bgp ID, optional
parameters / capabilities, missing BGP-LS capability, AS_TRANS without a
Four-Octet-AS capability. -/
def validateOpen (cfgASN : Nat) (st : SessionTimers) (msg : OpenMessage) :
    SessionTimers × Option ErrWithNotification :=
  if msg.version ≠ 4 then
    (st, some ⟨.openMessage, .unsupportedVersionNumber, [0, 4]⟩)
  else if msg.asn ≠ asTrans ∧ msg.asn ≠ cfgASN % 65536 then
    (st, some ⟨.openMessage, .badPeerAS, []⟩)
  else if msg.holdTime < 3 then
    (st, some ⟨.openMessage, .unacceptableHoldTime, []⟩)
  else
    let st2 :=
      if msg.holdTime * 1000000000 < st.holdTime then
        { holdTime := msg.holdTime * 1000000000
        , keepAliveTime := msg.holdTime * 1000000000 / 3 / 1000000000 * 1000000000 }
      else st
    if msg.bgpID = 0 then
      (st2, some ⟨.openMessage, .badBgpID, []⟩)
    else
      match checkParams cfgASN (false, false) msg.optParams with
      | .error e => (st2, some e)
      | .ok found =>
        if found.2 = false then
          (st2, some ⟨.openMessage, .unsupportedCapability,
            capMultiprotoSerialize bgpLsAFI bgpLsSAFI⟩)
        else if msg.asn = asTrans ∧ found.1 = false then
          (st2, some ⟨.openMessage, .badPeerAS, []⟩)
        else
          (st2, none)

/-- Modelled from the spec: `newOpenMessage` (external codec).  Per spec
§4.4.2 and the round-trip assertions in the repository's message tests: the
constructed OPEN has version 4, the two-octet AS field carries the local
ASN (or AS_TRANS when it exceeds 65535), the hold-time field carries the
whole seconds of the duration argument, and the single capability optional
parameter holds the Four-Octet-AS and Multiprotocol(BGP-LS/BGP-LS)
capabilities.  The Go constructor's error return (for an unrepresentable
bgp id) is outside the claims and omitted. -/
def newOpenMessage (localASN : Nat) (holdTimeNs : Nat) (bgpID : Nat) : OpenMessage :=
  { version := 4
  , asn := if 65535 < localASN then asTrans else localASN % 65536
  , holdTime := holdTimeNs / 1000000000
  , bgpID := bgpID
  , optParams :=
      [.capabilityOptParam [.capFourOctetAs localASN, .capMultiproto bgpLsAFI bgpLsSAFI]] }

/-- The OPEN message the `connect` handler sends (src/neighbor.go line 239):
`newOpenMessage(f.localASN, f.holdTime, ...)` — note that it passes the
FSM's current `holdTime` field, not the configured hold time. -/
def connectOpenMessage (localASN : Nat) (st : SessionTimers) (bgpID : Nat) : OpenMessage :=
  newOpenMessage localASN st.holdTime bgpID

/-- The transition guard `transition` (src/neighbor.go lines 692-733):
returns the new current state, or `none` for `errInvalidStateTransition`.
The Go `default` branch (an FSMState outside the enumeration) cannot arise
for the inductive `FSMState`. -/
def transition (cur next : FSMState) : Option FSMState :=
  match next with
  | DisabledState => some DisabledState
  | IdleState => some IdleState
  | ConnectState =>
    if cur = IdleState ∨ cur = ConnectState ∨ cur = ActiveState then
      some ConnectState
    else none
  | ActiveState =>
    if cur = ConnectState ∨ cur = ActiveState ∨ cur = OpenSentState then
      some ActiveState
    else none
  | OpenSentState =>
    if cur = ConnectState ∨ cur = ActiveState then some OpenSentState else none
  | OpenConfirmState =>
    if cur = OpenSentState ∨ cur = OpenConfirmState then some OpenConfirmState else none
  | EstablishedState =>
    if cur = OpenConfirmState ∨ cur = EstablishedState then some EstablishedState else none

/-- The allowed-edges table of spec §4.6, written from the spec's words for
comparison with the source `transition` guard: Disabled and Idle are
reachable from any state; Connect from Idle/Connect/Active; Active from
Connect/Active/OpenSent; OpenSent from Connect/Active; OpenConfirm from
OpenSent/OpenConfirm; Established from OpenConfirm/Established. -/
def allowedEdgeSpec (cur next : FSMState) : Bool :=
  match next with
  | DisabledState => true
  | IdleState => true
  | ConnectState => cur = IdleState ∨ cur = ConnectState ∨ cur = ActiveState
  | ActiveState => cur = ConnectState ∨ cur = ActiveState ∨ cur = OpenSentState
  | OpenSentState => cur = ConnectState ∨ cur = ActiveState
  | OpenConfirmState => cur = OpenSentState ∨ cur = OpenConfirmState
  | EstablishedState => cur = OpenConfirmState ∨ cur = EstablishedState

/-- One iteration of the driver `loop` seen from its environment: whether
the disable channel wins the select around the state-transition-event emit
(src/neighbor.go lines 522-528), and which next state the dispatched state
handler returns for this iteration. -/
structure LoopStepEnv where
  emitDisable : Bool
  next : FSMState
deriving DecidableEq, Repr

/-- Outcome of running the driver `loop` against a finite environment
trace: the loop returned (with the final value of `f.s`), the
transition guard panicked, or the trace ended with the loop still
running in the given state. -/
inductive LoopOutcome where
  | terminated (s : FSMState)
  | panicked
  | running (s : FSMState)
deriving DecidableEq, Repr

/-- The driver `loop` (src/neighbor.go lines 517-549) over an environment
trace.  Each iteration: if the current state is Disabled the loop echoes on
the disable channel and returns; otherwise it emits the state-transition
event — if the disable channel wins that select the loop echoes and
returns immediately, with `f.s` still holding the current (non-Disabled)
state — then dispatches the state handler and applies the returned next
state through `transitionAndPanicOnErr`, which panics when the guard
rejects the transition. -/
def loopRun : FSMState → List LoopStepEnv → LoopOutcome
  | DisabledState, _ => .terminated DisabledState
  | s, [] => .running s
  | s, e :: rest =>
    if e.emitDisable then
      .terminated s
    else
      match transition s e.next with
      | some s2 => loopRun s2 rest
      | none => .panicked

/-- Parsed messages as the state handlers distinguish them (the Go type
switches over `*keepAliveMessage`, `*UpdateMessage`, `*NotificationMessage`
and `*openMessage`).  Update and notification payloads are carried opaquely
by the events and are omitted. -/
inductive Message where
  | keepAliveMessage
  | updateMessage
  | notificationMessage
  | openMessage (o : OpenMessage)
deriving DecidableEq, Repr

/-- Event kinds emitted on the shared event channel (events.go is external
to src; the kinds are those the FSM core emits, spec §4.5).  The neighbor
config pointer and error/message payloads carried by the Go events are
identity and log data and are omitted. -/
inductive Event where
  | stateTransition (s : FSMState)
  | neighborErr
  | holdTimerExpired
  | notificationReceived
  | updateReceived
deriving DecidableEq, Repr

/-- Observable actions of a state handler, in program order: event emits
that succeeded, notifications written to the connection (code, subcode,
data), keepalives written, timer operations and the connection-quartet
teardown `cleanupConn`. -/
inductive Action where
  | emitEvent (e : Event)
  | sendNotif (code : NotifErrCode) (subcode : NotifErrSubcode) (data : List Nat)
  | sendKeepAliveMsg
  | drainHoldTimer
  | resetHoldTimer
  | resetKeepAliveTimer
  | cleanupConn
deriving DecidableEq, Repr

/-- The select alternatives of the `established` handler: the disable
channel, a reader error (carrying a notification payload when the error is
an `errWithNotification`), the hold timer, the keepalive timer (with the
success of the keepalive write), and an inbound message. -/
inductive EstInput where
  | disable
  | readerErr (e : Option ErrWithNotification)
  | holdTimerFire
  | keepAliveTimerFire (writeOk : Bool)
  | inbound (m : Message)
deriving DecidableEq, Repr

/-- Result of one `established` select iteration: continue the loop, or
return the given next state to the driver. -/
inductive StepResult where
  | continue
  | halt (next : FSMState)
deriving DecidableEq, Repr

/-- handleErr (src/neighbor.go lines 285-302): send the notification when
the error carries one, emit NeighborErr — if the disable channel wins that
select, drain the hold timer, tear down and return Disabled — else drain
the hold timer, tear down and return `next`. -/
def handleErr (e : Option ErrWithNotification) (emitDisable : Bool)
    (next : FSMState) : List Action × FSMState :=
  let notifActs : List Action :=
    match e with
    | some n => [.sendNotif n.code n.subcode n.data]
    | none => []
  if emitDisable then
    (notifActs ++ [.drainHoldTimer, .cleanupConn], DisabledState)
  else
    (notifActs ++ [.emitEvent .neighborErr, .drainHoldTimer, .cleanupConn], next)

/-- One select iteration of the `established` handler (src/neighbor.go
lines 448-515).  `emitDisable` tells whether the disable channel wins the
select around any event emit performed in this iteration. -/
def establishedStep (input : EstInput) (emitDisable : Bool) :
    List Action × StepResult :=
  match input with
  | .disable =>
    ([.sendNotif .cease .zero [], .drainHoldTimer, .cleanupConn], .halt DisabledState)
  | .readerErr e =>
    let r := handleErr e emitDisable IdleState
    (r.1, .halt r.2)
  | .holdTimerFire =>
    if emitDisable then
      ([.sendNotif .holdTimerExpired .zero [], .cleanupConn], .halt DisabledState)
    else
      ([.sendNotif .holdTimerExpired .zero [], .emitEvent .holdTimerExpired,
        .cleanupConn], .halt IdleState)
  | .keepAliveTimerFire writeOk =>
    if writeOk then
      ([.sendKeepAliveMsg, .resetKeepAliveTimer], .continue)
    else
      let r := handleErr none emitDisable IdleState
      (Action.sendKeepAliveMsg :: r.1, .halt r.2)
  | .inbound .keepAliveMessage =>
    ([.drainHoldTimer, .resetHoldTimer], .continue)
  | .inbound .updateMessage =>
    if emitDisable then
      ([.drainHoldTimer, .resetHoldTimer, .sendNotif .cease .zero [],
        .drainHoldTimer, .cleanupConn], .halt DisabledState)
    else
      ([.drainHoldTimer, .resetHoldTimer, .emitEvent .updateReceived], .continue)
  | .inbound .notificationMessage =>
    if emitDisable then
      ([.drainHoldTimer, .cleanupConn], .halt DisabledState)
    else
      ([.emitEvent .notificationReceived, .drainHoldTimer, .cleanupConn],
        .halt IdleState)
  | .inbound (.openMessage _) =>
    if emitDisable then
      ([.drainHoldTimer, .cleanupConn], .halt DisabledState)
    else
      ([.emitEvent .neighborErr,
        .sendNotif .messageHeader .badType [openMessageTypeByte],
        .drainHoldTimer, .cleanupConn], .halt IdleState)

/-- Whether a capability is a Four-Octet-AS capability. -/
def Cap.isFourOctetAs : Cap → Bool
  | .capFourOctetAs _ => true
  | _ => false

/-- Whether a capability is a Multiprotocol capability carrying the BGP-LS
AFI/SAFI pair. -/
def Cap.isBgpLs : Cap → Bool
  | .capMultiproto afi safi => decide (afi = bgpLsAFI) && decide (safi = bgpLsSAFI)
  | _ => false

/-- Whether a capability passes the Four-Octet-AS ASN check of rule 7: a
Four-Octet-AS capability must carry the configured peer ASN; other
capabilities are unconstrained. -/
def Cap.fourOctetOk (cfgASN : Nat) : Cap → Bool
  | .capFourOctetAs a => decide (a = cfgASN)
  | _ => true

/-- Whether an optional parameter is a capability parameter all of whose
Four-Octet-AS capabilities carry the configured peer ASN (the per-parameter
conditions under which the scan of rules 6-7 cannot fail). -/
def OptParam.capsOk (cfgASN : Nat) : OptParam → Bool
  | .capabilityOptParam caps => caps.all (Cap.fourOctetOk cfgASN)
  | .unknownOptParam => false

/-- Whether an optional parameter contains a Four-Octet-AS capability. -/
def OptParam.hasFourOctet : OptParam → Bool
  | .capabilityOptParam caps => caps.any Cap.isFourOctetAs
  | .unknownOptParam => false

/-- Whether an optional parameter contains the BGP-LS Multiprotocol
capability. -/
def OptParam.hasBgpLs : OptParam → Bool
  | .capabilityOptParam caps => caps.any Cap.isBgpLs
  | .unknownOptParam => false

/-- Whether an optional-parameter list contains the BGP-LS Multiprotocol
capability. -/
def hasBgpLsParam (ps : List OptParam) : Bool :=
  ps.any OptParam.hasBgpLs

lemma checkCaps_ok (cfgASN : Nat) (caps : List Cap) :
    ∀ fo bl : Bool, caps.all (Cap.fourOctetOk cfgASN) = true →
      checkCaps cfgASN (fo, bl) caps =
        .ok (fo || caps.any Cap.isFourOctetAs, bl || caps.any Cap.isBgpLs) := by
  induction caps with
  | nil => intro fo bl _; simp [checkCaps]
  | cons c rest ih =>
    intro fo bl h
    rw [List.all_cons, Bool.and_eq_true] at h
    obtain ⟨hc, hrest⟩ := h
    cases c with
    | capFourOctetAs a =>
      have ha : a = cfgASN := by simpa [Cap.fourOctetOk] using hc
      simp [checkCaps, ha, ih true bl hrest, Cap.isFourOctetAs, Cap.isBgpLs]
    | capMultiproto afi safi =>
      simp [checkCaps, ih fo _ hrest, Cap.isFourOctetAs, Cap.isBgpLs, Bool.or_assoc]
    | capUnknown =>
      simp [checkCaps, ih fo bl hrest, Cap.isFourOctetAs, Cap.isBgpLs]

lemma checkParams_ok (cfgASN : Nat) (ps : List OptParam) :
    ∀ fo bl : Bool, ps.all (OptParam.capsOk cfgASN) = true →
      checkParams cfgASN (fo, bl) ps =
        .ok (fo || ps.any OptParam.hasFourOctet, bl || ps.any OptParam.hasBgpLs) := by
  induction ps with
  | nil => intro fo bl _; simp [checkParams]
  | cons p rest ih =>
    intro fo bl h
    rw [List.all_cons, Bool.and_eq_true] at h
    obtain ⟨hp, hrest⟩ := h
    cases p with
    | capabilityOptParam caps =>
      have hcaps : caps.all (Cap.fourOctetOk cfgASN) = true := by
        simpa [OptParam.capsOk] using hp
      rw [checkParams, checkCaps_ok cfgASN caps fo bl hcaps]
      simp only []
      rw [ih _ _ hrest]
      simp [OptParam.hasFourOctet, OptParam.hasBgpLs, Bool.or_assoc]
    | unknownOptParam => simp [OptParam.capsOk] at hp

lemma div_three_truncate (a : Nat) :
    a * 1000000000 / 3 / 1000000000 = a / 3 := by
  rw [Nat.div_div_eq_div_mul]
  exact Nat.mul_div_mul_right a 3 (by norm_num)

lemma validateOpen_ok_rules (cfgASN : Nat) (st : SessionTimers) (msg : OpenMessage)
    (h : (validateOpen cfgASN st msg).2 = none) :
    msg.version = 4 ∧ (msg.asn = asTrans ∨ msg.asn = cfgASN % 65536) ∧
      3 ≤ msg.holdTime := by
  by_cases h1 : msg.version = 4
  · by_cases h2 : msg.asn = asTrans ∨ msg.asn = cfgASN % 65536
    · by_cases h3 : 3 ≤ msg.holdTime
      · exact ⟨h1, h2, h3⟩
      · have h3lt : msg.holdTime < 3 := Nat.not_le.mp h3
        rcases h2 with ha | ha <;> simp [validateOpen, h1, ha, h3lt] at h
    · push_neg at h2
      simp [validateOpen, h1, h2.1, h2.2] at h
  · simp [validateOpen, h1] at h

lemma validateOpen_fst (cfgASN : Nat) (st : SessionTimers) (msg : OpenMessage)
    (h1 : msg.version = 4) (h2 : msg.asn = asTrans ∨ msg.asn = cfgASN % 65536)
    (h3 : 3 ≤ msg.holdTime) :
    (validateOpen cfgASN st msg).1 =
      if msg.holdTime * 1000000000 < st.holdTime then
        ⟨msg.holdTime * 1000000000,
         msg.holdTime * 1000000000 / 3 / 1000000000 * 1000000000⟩
      else st := by
  have hv : ¬(msg.version ≠ 4) := by simp [h1]
  have hasn : ¬(msg.asn ≠ asTrans ∧ msg.asn ≠ cfgASN % 65536) := by
    rcases h2 with h | h <;> simp [h]
  have hht : ¬(msg.holdTime < 3) := Nat.not_lt.mpr h3
  simp only [validateOpen, if_neg hv, if_neg hasn, if_neg hht]
  by_cases hb : msg.bgpID = 0
  · simp [hb]
  · simp only [hb, if_false, if_neg hb]
    rcases hcp : checkParams cfgASN (false, false) msg.optParams with e | found
    · simp [hcp]
    · by_cases hf2 : found.2 = false
      · simp [hcp, hf2]
      · by_cases hf1 : msg.asn = asTrans ∧ found.1 = false
        · simp [hcp, hf2, hf1]
        · simp [hcp, hf2, hf1]

lemma validateOpen_accept_negotiated (cfgASN s : Nat) (msg : OpenMessage)
    (h : (validateOpen cfgASN (newFSMTimers (s * 1000000000)) msg).2 = none) :
    (validateOpen cfgASN (newFSMTimers (s * 1000000000)) msg).1 =
      ⟨min s msg.holdTime * 1000000000, min s msg.holdTime / 3 * 1000000000⟩ := by
  obtain ⟨h1, h2, h3⟩ := validateOpen_ok_rules _ _ _ h
  rw [validateOpen_fst _ _ _ h1 h2 h3]
  by_cases hc : msg.holdTime * 1000000000 < (newFSMTimers (s * 1000000000)).holdTime
  · have hlt : msg.holdTime < s := by
      simp only [newFSMTimers] at hc
      omega
    rw [if_pos hc, Nat.min_eq_right (Nat.le_of_lt hlt), div_three_truncate]
  · have hge : s ≤ msg.holdTime := by
      simp only [newFSMTimers] at hc
      omega
    rw [if_neg hc, Nat.min_eq_left hge]
    simp [newFSMTimers, div_three_truncate]

lemma transition_none_of_not_allowed :
    ∀ cur next : FSMState, allowedEdgeSpec cur next = false → transition cur next = none := by
  decide

/-- C7: the transition guard accepts a requested transition if and only if
(current state, next state) is an edge of the §4.6 table, the accepted
transition installs exactly the requested state, and when the driver loop
dispatches a handler that returns a disallowed next state the driver
panics rather than continuing. -/
theorem transition_guard_matches_spec_table :
    (∀ cur next : FSMState, (transition cur next).isSome = allowedEdgeSpec cur next) ∧
    (∀ cur next : FSMState, allowedEdgeSpec cur next = true → transition cur next = some next) ∧
    (∀ (cur : FSMState) (e : LoopStepEnv) (rest : List LoopStepEnv),
      cur ≠ DisabledState → e.emitDisable = false → allowedEdgeSpec cur e.next = false →
      loopRun cur (e :: rest) = .panicked) := by
  refine ⟨by decide, by decide, ?_⟩
  intro cur e rest h1 h2 h3
  obtain ⟨ed, en⟩ := e
  simp only at h2 h3
  subst h2
  cases cur <;>
    simp [loopRun, transition_none_of_not_allowed _ _ h3] at *

theorem transition_guard_matches_spec_table_witness :
    transition IdleState ConnectState = some ConnectState ∧
    loopRun OpenSentState [⟨false, EstablishedState⟩] = .panicked :=
  ⟨transition_guard_matches_spec_table.2.1 IdleState ConnectState (by decide),
   transition_guard_matches_spec_table.2.2 OpenSentState ⟨false, EstablishedState⟩ []
     (by decide) rfl (by decide)⟩

/-- C1: evaluation of the driver loop at the failing input.  When the
disable channel wins the select around the state-transition-event emit
(shut() invoked while the emit blocks, here in IdleState), the loop echoes
on the disable channel and returns with `f.s` still IdleState — not
DisabledState.  The claim that the driver exits only through the Disabled
sink is therefore violated by the code, and a subsequent shut() would
block forever on the disable channel. -/
theorem loop_exit_during_emit_not_disabled :
    loopRun IdleState [⟨true, ConnectState⟩] = .terminated IdleState ∧
    IdleState ≠ DisabledState := by
  decide

/-- C8: in the Established state, an inbound OPEN message (with the emit
not preempted by disable) emits a NeighborErr event, sends a NOTIFICATION
with code MessageHeaderError, subcode BadMessageType and data the single
byte OpenMessageType, tears down the connection quartet, and returns Idle
as the next state. -/
theorem established_open_message_behavior :
    ∀ o : OpenMessage,
      establishedStep (.inbound (.openMessage o)) false =
        ([.emitEvent .neighborErr,
          .sendNotif .messageHeader .badType [openMessageTypeByte],
          .drainHoldTimer, .cleanupConn], .halt IdleState) :=
  fun _ => rfl

/-- C2: validateOpen returns at the first failing §4.3 rule; in
particular, every OPEN with version ≠ 4 is rejected with
OpenMessageError/UnsupportedVersionNumber and data the big-endian u16
value 4 regardless of any other field, and every OPEN that passes rules
1-7 (version 4, AS field acceptable, holdTime ≥ 3, non-zero bgpID, only
capability optional parameters whose Four-Octet-AS capabilities all carry
the configured ASN) but contains no Multiprotocol(BGP-LS, BGP-LS)
capability is rejected with OpenMessageError/UnsupportedCapability and
data the serialized BGP-LS MP capability. -/
theorem validateOpen_version_and_bgpls_rules :
    (∀ (cfgASN : Nat) (st : SessionTimers) (msg : OpenMessage),
      msg.version ≠ 4 →
      validateOpen cfgASN st msg =
        (st, some ⟨.openMessage, .unsupportedVersionNumber, [0, 4]⟩)) ∧
    (∀ (cfgASN : Nat) (st : SessionTimers) (msg : OpenMessage),
      msg.version = 4 → (msg.asn = asTrans ∨ msg.asn = cfgASN % 65536) →
      3 ≤ msg.holdTime → msg.bgpID ≠ 0 →
      msg.optParams.all (OptParam.capsOk cfgASN) = true →
      hasBgpLsParam msg.optParams = false →
      (validateOpen cfgASN st msg).2 =
        some ⟨.openMessage, .unsupportedCapability,
          capMultiprotoSerialize bgpLsAFI bgpLsSAFI⟩) := by
  constructor
  · intro cfgASN st msg h1
    simp [validateOpen, h1]
  · intro cfgASN st msg h1 h2 h3 h4 hok hnb
    have hv : ¬(msg.version ≠ 4) := by simp [h1]
    have hasn : ¬(msg.asn ≠ asTrans ∧ msg.asn ≠ cfgASN % 65536) := by
      rcases h2 with h | h <;> simp [h]
    have hht : ¬(msg.holdTime < 3) := Nat.not_lt.mpr h3
    simp only [validateOpen, if_neg hv, if_neg hasn, if_neg hht, if_neg h4]
    rw [checkParams_ok cfgASN msg.optParams false false hok]
    rw [hasBgpLsParam] at hnb
    simp [hnb]

theorem validateOpen_version_and_bgpls_rules_witness :
    validateOpen 64512 (newFSMTimers 90000000000) ⟨5, 64512, 90, 1, []⟩ =
      (newFSMTimers 90000000000,
        some ⟨.openMessage, .unsupportedVersionNumber, [0, 4]⟩) ∧
    (validateOpen 64512 (newFSMTimers 90000000000)
        ⟨4, 64512, 90, 1, [.capabilityOptParam [.capFourOctetAs 64512]]⟩).2 =
      some ⟨.openMessage, .unsupportedCapability,
        capMultiprotoSerialize bgpLsAFI bgpLsSAFI⟩ :=
  ⟨validateOpen_version_and_bgpls_rules.1 64512 (newFSMTimers 90000000000)
      ⟨5, 64512, 90, 1, []⟩ (by decide),
   validateOpen_version_and_bgpls_rules.2 64512 (newFSMTimers 90000000000)
      ⟨4, 64512, 90, 1, [.capabilityOptParam [.capFourOctetAs 64512]]⟩
      rfl (Or.inr (by decide)) (by decide) (by decide) (by decide) (by decide)⟩

/-- C3: an OPEN with version 4, an acceptable AS field (the configured
ASN as u16, or AS_TRANS — the Four-Octet-AS capability being present
either way), holdTime ≥ 3, non-zero bgpID and a single Capability
optional parameter containing FourOctetAS(configured ASN) and
Multiprotocol(BGP-LS, BGP-LS) is accepted by validateOpen, and arbitrary
unknown capabilities mixed into the capability list do not change
acceptance. -/
theorem validateOpen_accepts_valid_open :
    ∀ (cfgASN : Nat) (st : SessionTimers) (msg : OpenMessage) (caps : List Cap),
      msg.version = 4 → (msg.asn = asTrans ∨ msg.asn = cfgASN % 65536) →
      3 ≤ msg.holdTime → msg.bgpID ≠ 0 →
      msg.optParams = [.capabilityOptParam caps] →
      Cap.capFourOctetAs cfgASN ∈ caps →
      Cap.capMultiproto bgpLsAFI bgpLsSAFI ∈ caps →
      (∀ c ∈ caps, c = .capUnknown ∨ c = .capFourOctetAs cfgASN ∨
        c = .capMultiproto bgpLsAFI bgpLsSAFI) →
      (validateOpen cfgASN st msg).2 = none := by
  intro cfgASN st msg caps h1 h2 h3 h4 hps hin4 hinMp hshape
  have hall : caps.all (Cap.fourOctetOk cfgASN) = true := by
    rw [List.all_eq_true]
    intro c hc
    rcases hshape c hc with h | h | h <;> simp [h, Cap.fourOctetOk]
  have hfo : caps.any Cap.isFourOctetAs = true := by
    rw [List.any_eq_true]
    exact ⟨_, hin4, by simp [Cap.isFourOctetAs]⟩
  have hbl : caps.any Cap.isBgpLs = true := by
    rw [List.any_eq_true]
    exact ⟨_, hinMp, by simp [Cap.isBgpLs]⟩
  have hv : ¬(msg.version ≠ 4) := by simp [h1]
  have hasn : ¬(msg.asn ≠ asTrans ∧ msg.asn ≠ cfgASN % 65536) := by
    rcases h2 with h | h <;> simp [h]
  have hht : ¬(msg.holdTime < 3) := Nat.not_lt.mpr h3
  have hok : msg.optParams.all (OptParam.capsOk cfgASN) = true := by
    simp [hps, OptParam.capsOk, hall]
  simp only [validateOpen, if_neg hv, if_neg hasn, if_neg hht, if_neg h4]
  rw [checkParams_ok cfgASN msg.optParams false false hok]
  simp [hps, OptParam.hasFourOctet, OptParam.hasBgpLs, hfo, hbl]

theorem validateOpen_accepts_valid_open_witness :
    (validateOpen 4200000000 (newFSMTimers 90000000000)
      ⟨4, 23456, 90, 7,
        [.capabilityOptParam
          [.capUnknown, .capFourOctetAs 4200000000,
           .capMultiproto 16388 71, .capUnknown]]⟩).2 = none :=
  validateOpen_accepts_valid_open 4200000000 (newFSMTimers 90000000000)
    ⟨4, 23456, 90, 7,
      [.capabilityOptParam
        [.capUnknown, .capFourOctetAs 4200000000,
         .capMultiproto 16388 71, .capUnknown]]⟩
    [.capUnknown, .capFourOctetAs 4200000000, .capMultiproto 16388 71, .capUnknown]
    rfl (Or.inl (by decide)) (by decide) (by decide) rfl
    (by decide) (by decide) (by decide)

/-- C4: for every OPEN that validateOpen accepts, starting from the
session timers `newFSM` derives from a configured hold time of `s` whole
seconds, the negotiated hold time afterwards is min(s, peer holdTime)
seconds and the keepalive period is floor(negotiated/3) seconds (both in
nanoseconds, e.g. configured 180 s and peer 30 s yield hold 30 s and
keepalive 10 s — see the witness). -/
theorem validateOpen_negotiated_hold_time (cfgASN s : Nat) (msg : OpenMessage)
    (h : (validateOpen cfgASN (newFSMTimers (s * 1000000000)) msg).2 = none) :
    (validateOpen cfgASN (newFSMTimers (s * 1000000000)) msg).1 =
      ⟨min s msg.holdTime * 1000000000, min s msg.holdTime / 3 * 1000000000⟩ :=
  validateOpen_accept_negotiated cfgASN s msg h

theorem validateOpen_negotiated_hold_time_witness :
    (validateOpen 64512 (newFSMTimers (180 * 1000000000))
      ⟨4, 64512, 30, 1,
        [.capabilityOptParam [.capFourOctetAs 64512, .capMultiproto 16388 71]]⟩).1 =
      ⟨min 180 30 * 1000000000, min 180 30 / 3 * 1000000000⟩ :=
  validateOpen_negotiated_hold_time 64512 180
    ⟨4, 64512, 30, 1,
      [.capabilityOptParam [.capFourOctetAs 64512, .capMultiproto 16388 71]]⟩
    (by decide)

/-- C5 counterexample: an OPEN that passes rules 1-3 with a peer hold
time (3 s) lower than the configured hold time (90 s) but has bgpID 0.
validateOpen returns an error, yet the session timers have been mutated:
the hold-time reduction of rule 4 already happened. -/
theorem validateOpen_not_atomic_counterexample :
    (validateOpen 1 (newFSMTimers 90000000000) ⟨4, 1, 3, 0, []⟩).2 ≠ none ∧
    (validateOpen 1 (newFSMTimers 90000000000) ⟨4, 1, 3, 0, []⟩).1 ≠
      newFSMTimers 90000000000 := by
  decide

/-- C5 amended: validateOpen leaves the session timers unchanged on
errors raised before the hold-time reduction of rule 4 — version ≠ 4,
two-octet AS-field mismatch, or holdTime < 3; an error raised by a later
rule (bad BGP ID, optional-parameter or capability errors) can leave the
negotiated hold time already reduced. -/
theorem validateOpen_unchanged_on_early_rules :
    ∀ (cfgASN : Nat) (st : SessionTimers) (msg : OpenMessage),
      (msg.version ≠ 4 ∨ (msg.asn ≠ asTrans ∧ msg.asn ≠ cfgASN % 65536) ∨
        msg.holdTime < 3) →
      (validateOpen cfgASN st msg).1 = st := by
  intro cfgASN st msg h
  rcases h with h | h | h
  · simp [validateOpen, h]
  · by_cases h1 : msg.version ≠ 4
    · simp [validateOpen, h1]
    · simp [validateOpen, h1, h.1, h.2]
  · by_cases h1 : msg.version ≠ 4
    · simp [validateOpen, h1]
    · by_cases h2 : msg.asn ≠ asTrans ∧ msg.asn ≠ cfgASN % 65536
      · simp [validateOpen, h1, h2]
      · simp [validateOpen, h1, h2, h]

theorem validateOpen_unchanged_on_early_rules_witness :
    (validateOpen 64512 (newFSMTimers 90000000000) ⟨5, 0, 0, 0, []⟩).1 =
      newFSMTimers 90000000000 :=
  validateOpen_unchanged_on_early_rules 64512 (newFSMTimers 90000000000)
    ⟨5, 0, 0, 0, []⟩ (Or.inl (by decide))

/-- C6 counterexample: configured hold time 180 s; a session accepts a
peer OPEN with holdTime 30, which reduces the FSM's hold-time field; the
OPEN the Connect handler constructs afterwards (a reconnection) carries
hold_time 30, not the configured 180. -/
theorem connect_open_hold_time_counterexample :
    (validateOpen 64512 (newFSMTimers (180 * 1000000000))
        ⟨4, 64512, 30, 99,
          [.capabilityOptParam [.capFourOctetAs 64512, .capMultiproto 16388 71]]⟩).2 =
      none ∧
    (connectOpenMessage 64512
        (validateOpen 64512 (newFSMTimers (180 * 1000000000))
          ⟨4, 64512, 30, 99,
            [.capabilityOptParam [.capFourOctetAs 64512, .capMultiproto 16388 71]]⟩).1
        2886729729).holdTime ≠ 180 := by
  decide

/-- C6 amended: the OPEN constructed at the Connect handler's
OPEN-sending step carries hold_time equal to the FSM's current hold-time
field: the configured hold time on a fresh FSM, but on reconnections
after a session accepted a peer OPEN it is the negotiated
min(configured, peer holdTime), which can be lower than the configured
value. -/
theorem connect_open_hold_time_amended :
    ∀ (localASN bgpID cfgASN s : Nat) (msg : OpenMessage),
      (connectOpenMessage localASN (newFSMTimers (s * 1000000000)) bgpID).holdTime = s ∧
      ((validateOpen cfgASN (newFSMTimers (s * 1000000000)) msg).2 = none →
        (connectOpenMessage localASN
          ((validateOpen cfgASN (newFSMTimers (s * 1000000000)) msg).1)
          bgpID).holdTime = min s msg.holdTime) := by
  intro localASN bgpID cfgASN s msg
  constructor
  · simp [connectOpenMessage, newOpenMessage, newFSMTimers]
  · intro h
    rw [validateOpen_accept_negotiated cfgASN s msg h]
    simp [connectOpenMessage, newOpenMessage]

theorem connect_open_hold_time_amended_witness :
    (connectOpenMessage 65000 (newFSMTimers (180 * 1000000000)) 1).holdTime = 180 ∧
    (connectOpenMessage 65000
        ((validateOpen 64512 (newFSMTimers (180 * 1000000000))
          ⟨4, 64512, 30, 1,
            [.capabilityOptParam [.capFourOctetAs 64512, .capMultiproto 16388 71]]⟩).1)
        1).holdTime = min 180 30 :=
  ⟨(connect_open_hold_time_amended 65000 1 64512 180
      ⟨4, 64512, 30, 1,
        [.capabilityOptParam [.capFourOctetAs 64512, .capMultiproto 16388 71]]⟩).1,
   (connect_open_hold_time_amended 65000 1 64512 180
      ⟨4, 64512, 30, 1,
        [.capabilityOptParam [.capFourOctetAs 64512, .capMultiproto 16388 71]]⟩).2
     (by decide)⟩

/-- C9: an OPEN whose optional-parameters list is empty but which passes
rules 1-5 (version 4, acceptable AS field, holdTime ≥ 3, non-zero bgpID)
is rejected with OpenMessageError/UnsupportedCapability and data the
serialized BGP-LS MP capability — not with UnsupportedOptParam: the
per-parameter scan is vacuous and the missing-BGP-LS check fires. -/
theorem validateOpen_empty_params_unsupported_capability :
    ∀ (cfgASN : Nat) (st : SessionTimers) (msg : OpenMessage),
      msg.version = 4 → (msg.asn = asTrans ∨ msg.asn = cfgASN % 65536) →
      3 ≤ msg.holdTime → msg.bgpID ≠ 0 → msg.optParams = [] →
      (validateOpen cfgASN st msg).2 =
        some ⟨.openMessage, .unsupportedCapability,
          capMultiprotoSerialize bgpLsAFI bgpLsSAFI⟩ := by
  intro cfgASN st msg h1 h2 h3 h4 hps
  have hv : ¬(msg.version ≠ 4) := by simp [h1]
  have hasn : ¬(msg.asn ≠ asTrans ∧ msg.asn ≠ cfgASN % 65536) := by
    rcases h2 with h | h <;> simp [h]
  have hht : ¬(msg.holdTime < 3) := Nat.not_lt.mpr h3
  simp only [validateOpen, if_neg hv, if_neg hasn, if_neg hht, if_neg h4]
  simp [hps, checkParams]

theorem validateOpen_empty_params_unsupported_capability_witness :
    (validateOpen 64512 (newFSMTimers 90000000000) ⟨4, 64512, 90, 1, []⟩).2 =
      some ⟨.openMessage, .unsupportedCapability,
        capMultiprotoSerialize bgpLsAFI bgpLsSAFI⟩ :=
  validateOpen_empty_params_unsupported_capability 64512 (newFSMTimers 90000000000)
    ⟨4, 64512, 90, 1, []⟩ rfl (Or.inr (by decide)) (by decide) (by decide) rfl

/-- C10: when the configured peer ASN is exactly 23456 (AS_TRANS) and the
peer's OPEN carries 23456 in the two-octet AS field without any
Four-Octet-AS capability, validateOpen rejects it with
OpenMessageError/BadPeerAS even though the BGP-LS capability is present
and every other rule is satisfied: the AS_TRANS sentinel check takes
precedence over the direct ASN equality check. -/
theorem validateOpen_astrans_sentinel_precedence :
    ∀ (st : SessionTimers) (msg : OpenMessage),
      msg.version = 4 → msg.asn = asTrans → 3 ≤ msg.holdTime → msg.bgpID ≠ 0 →
      msg.optParams.all (OptParam.capsOk 23456) = true →
      msg.optParams.any OptParam.hasFourOctet = false →
      msg.optParams.any OptParam.hasBgpLs = true →
      (validateOpen 23456 st msg).2 = some ⟨.openMessage, .badPeerAS, []⟩ := by
  intro st msg h1 h2 h3 h4 hok hfo hbl
  have hv : ¬(msg.version ≠ 4) := by simp [h1]
  have hasn : ¬(msg.asn ≠ asTrans ∧ msg.asn ≠ 23456 % 65536) := by simp [h2]
  have hht : ¬(msg.holdTime < 3) := Nat.not_lt.mpr h3
  simp only [validateOpen, if_neg hv, if_neg hasn, if_neg hht, if_neg h4]
  rw [checkParams_ok 23456 msg.optParams false false hok]
  simp [hfo, hbl, h2]

theorem validateOpen_astrans_sentinel_precedence_witness :
    (validateOpen 23456 (newFSMTimers 90000000000)
      ⟨4, 23456, 90, 9, [.capabilityOptParam [.capMultiproto 16388 71]]⟩).2 =
      some ⟨.openMessage, .badPeerAS, []⟩ :=
  validateOpen_astrans_sentinel_precedence (newFSMTimers 90000000000)
    ⟨4, 23456, 90, 9, [.capabilityOptParam [.capMultiproto 16388 71]]⟩
    rfl rfl (by decide) (by decide) (by decide) (by decide) (by decide)

end Bgpls
